import Mathlib

/-!
Shallow embedding of the conversational RAG service (FastAPI + SQLAlchemy + pgvector
application): `app/services/file_service.py`, `app/services/chat_service.py`,
`app/api/routes.py` and the data model of `app/models/db_models.py`.

Conventions of the embedding:
* Database rows are Lean structures mirroring the SQLAlchemy models; a table is a
  `List` of rows kept in insertion order.  `created_at` ordering of `messages` is
  represented by list position (the spec requires timestamps to be strictly
  orderable within a session, and rows are appended on insert).
* The SQLAlchemy unit of work is modelled explicitly: `pending` rows are the
  objects added to the session, `commit` moves them into the stored table,
  `rollback` discards them.
* Python exceptions are modelled with `Except`: a fallible step is an oracle
  value of type `Except String _` (the `String` is the rendered error message),
  and a `try/except` block is a `match` on that value.  Remote provider calls
  (embedding provider, LLM provider) are oracle functions passed as arguments.
* Embedding vectors are modelled as `List ℤ` (exact stand-ins for the float
  vectors; only ordering by distance matters to the claims).
-/

deriving instance DecidableEq for Except

/-! ### Character/string helpers

Executable counterparts of the Python string operations used by the services
(`str.lower`, `str.endswith`, `str.strip` emptiness, substring membership).
They are defined over `String.data` so that the kernel can evaluate them. -/

/-- Lower-case a single character, as `str.lower` does for ASCII letters. -/
def char_lower (c : Char) : Char :=
  if c.isUpper then Char.ofNat (c.toNat + 32) else c

/-- `s.lower()` over the characters of `s`. -/
def lower_str (s : String) : String :=
  String.mk (s.data.map char_lower)

/-- `s.endswith(suffix)`. -/
def ends_with_str (s suffix : String) : Bool :=
  s.data.drop (s.data.length - suffix.data.length) == suffix.data

/-- `s.strip() == ""`: every character of `s` is whitespace. -/
def is_blank (s : String) : Bool :=
  s.data.all Char.isWhitespace

/-- Does `sub` occur at the head of `hay`? -/
def sub_at_head : List Char → List Char → Bool
  | [], _ => true
  | _ :: _, [] => false
  | n :: ns, h :: hs => n == h && sub_at_head ns hs

/-- Does `sub` occur anywhere in `hay`?  (Python `sub in hay`.) -/
def sub_somewhere (sub : List Char) : List Char → Bool
  | [] => sub_at_head sub []
  | h :: hs => sub_at_head sub (h :: hs) || sub_somewhere sub hs

/-- Python substring test `needle in hay` on strings. -/
def str_contains_sub (hay needle : String) : Bool :=
  sub_somewhere needle.data hay.data

/-! ### Data model (`app/models/db_models.py`) -/

/-- Row of the `sessions` table: client-supplied id and the nullable rolling
summary.  (`created_at` and the ORM relationships are not needed by the claims.) -/
structure SessionRow where
  id : String
  summary : Option String
deriving DecidableEq

/-- Row of the `messages` table.  Position in the containing list stands for
`created_at` order (rows are appended on insert). -/
structure MessageRow where
  session_id : String
  role : String
  content : String
deriving DecidableEq

/-- Row of the `documents` table. -/
structure DocumentRow where
  id : Nat
  session_id : String
  filename : String
  content : String
deriving DecidableEq

/-- Row of the `document_chunks` table; `embedding` is the pgvector column. -/
structure DocumentChunkRow where
  document_id : Nat
  content : String
  embedding : List ℤ
deriving DecidableEq

/-- HTTP error as raised by the services (`fastapi.HTTPException`). -/
structure HTTPError where
  status_code : Nat
  detail : String
deriving DecidableEq

/-! ### File ingestion (`app/services/file_service.py`) -/

/-- Outcome of `page.extract_text()` on one PDF page: the call can raise,
return `None`, or return text. -/
inductive PageResult where
  | fail
  | text (t : Option String)
deriving DecidableEq

/-- Abstraction of the bytes handed to `pypdf.PdfReader`: whether reader
construction succeeds, and the per-page extraction outcomes. -/
structure PdfFile where
  readerOk : Bool
  pages : List PageResult
deriving DecidableEq

/-- The `text += extracted` accumulation loop inside `parse_pdf`: pages are
visited in order, a raising page aborts the loop (the surrounding `try` takes
over), `None`/empty pages are skipped (`if extracted:`). -/
def parse_pdf_loop : List PageResult → String → String
  | [], acc => acc
  | PageResult.fail :: _, acc => acc
  | PageResult.text none :: rest, acc => parse_pdf_loop rest acc
  | PageResult.text (some t) :: rest, acc => parse_pdf_loop rest (acc ++ t)

/-- `parse_pdf` (file_service.py): extracts page texts, swallowing every
exception (reader construction failure and per-page failure alike) and
returning whatever text accumulated before the failure. -/
def parse_pdf (f : PdfFile) : String :=
  if f.readerOk then parse_pdf_loop f.pages "" else ""

/-- Text accumulated over the pages strictly before the first raising page:
the specification-side description of what `parse_pdf` returns. -/
def text_before_failure : List PageResult → String
  | [] => ""
  | PageResult.fail :: _ => ""
  | PageResult.text none :: rest => text_before_failure rest
  | PageResult.text (some t) :: rest => t ++ text_before_failure rest

/-- Concatenation of all non-raising page texts of the document. -/
def full_page_text : List PageResult → String
  | [] => ""
  | PageResult.fail :: rest => full_page_text rest
  | PageResult.text none :: rest => full_page_text rest
  | PageResult.text (some t) :: rest => t ++ full_page_text rest

/-- The two interpretations of the uploaded bytes used by `process_file`:
what `pypdf` sees, and what `bytes.decode("utf-8")` yields (or the rendered
`UnicodeDecodeError` message). -/
structure FileBytes where
  asPdf : PdfFile
  asUtf8 : Except String String

/-- An upload (`fastapi.UploadFile`): filename plus bytes. -/
structure UploadData where
  filename : String
  bytes : FileBytes

/-- State of the database as seen by `process_file`: stored rows plus the
pending (added, uncommitted) rows of the SQLAlchemy session. -/
structure FileDB where
  docs : List DocumentRow
  chunks : List DocumentChunkRow
  pending_docs : List DocumentRow
  pending_chunks : List DocumentChunkRow
  next_doc_id : Nat
deriving DecidableEq

/-- `await db.commit()`: pending rows become stored. -/
def FileDB.commit (db : FileDB) : FileDB :=
  { db with
    docs := db.docs ++ db.pending_docs
    chunks := db.chunks ++ db.pending_chunks
    pending_docs := []
    pending_chunks := [] }

/-- `await db.rollback()`: pending rows are discarded. -/
def FileDB.rollback (db : FileDB) : FileDB :=
  { db with pending_docs := [], pending_chunks := [] }

/-- Detail string of the unsupported-extension `HTTPException`. -/
def unsupported_detail : String :=
  "Unsupported file format. Only PDF and TXT are supported."

/-- Detail string of the empty-content `HTTPException`. -/
def empty_detail : String :=
  "File content is empty or could not be extracted."

/-- Step 1 of `process_file`: the `try` block around extension dispatch and
reading.  A raising branch is re-raised by the `except` as a 400 whose detail
wraps the rendered inner error (`f"Error reading file: {str(e)}"`; for the
inner `HTTPException` `str` renders as `"400: <detail>"`). -/
def read_content (u : UploadData) : Except HTTPError String :=
  if ends_with_str (lower_str u.filename) ".pdf" then
    Except.ok (parse_pdf u.bytes.asPdf)
  else if ends_with_str (lower_str u.filename) ".txt" then
    match u.bytes.asUtf8 with
    | Except.ok s => Except.ok s
    | Except.error msg => Except.error ⟨400, "Error reading file: " ++ msg⟩
  else
    Except.error ⟨400, "Error reading file: 400: " ++ unsupported_detail⟩

/-- Modelled from the spec: the chunker called by `process_file` is
`RecursiveCharacterTextSplitter(chunk_size=800, chunk_overlap=100)` from the
external langchain library, whose implementation is not part of the
sources of this repository.  The spec describes the splitting policy as a
"deterministic sliding-window split over characters with a fixed chunk size
and fixed overlap", never dropping trailing content; this is that sliding
window (stride = size - overlap), written with explicit fuel so the kernel
can evaluate it. -/
def slide_chunks_go (size step : Nat) : Nat → List Char → List (List Char)
  | 0, _ => []
  | _ + 1, [] => []
  | fuel + 1, c :: cs =>
    if (c :: cs).length ≤ size then [c :: cs]
    else (c :: cs).take size :: slide_chunks_go size step fuel ((c :: cs).drop step)

/-- Modelled from the spec: `text_splitter.split_text(content)` with
chunk size 800 and overlap 100 (stride 700).  See `slide_chunks_go`. -/
def split_text (content : String) : List String :=
  (slide_chunks_go 800 700 content.data.length content.data).map String.mk

/-- `process_file` (file_service.py): parse, empty check, persist Document
(committed immediately), chunk, batch-embed via the provider oracle `embed`,
persist chunks; the second `try/except` rolls back pending rows and re-raises
a 500 on failure.  Returns the final database state and the outcome. -/
def process_file (embed : List String → Except String (List (List ℤ)))
    (u : UploadData) (session_id : String) (db : FileDB) :
    FileDB × Except HTTPError DocumentRow :=
  match read_content u with
  | Except.error e => (db, Except.error e)
  | Except.ok content =>
    if is_blank content then (db, Except.error ⟨400, empty_detail⟩)
    else
      let doc : DocumentRow := ⟨db.next_doc_id, session_id, u.filename, content⟩
      let db1 : FileDB :=
        { db with pending_docs := db.pending_docs ++ [doc], next_doc_id := db.next_doc_id + 1 }
      let db2 := db1.commit
      let chunks := split_text content
      if chunks.isEmpty then (db2, Except.ok doc)
      else
        match embed chunks with
        | Except.error msg =>
          (db2.rollback, Except.error ⟨500, "Internal Server Error processing file: " ++ msg⟩)
        | Except.ok vectors =>
          let rows := (chunks.zip vectors).map
            (fun cv => DocumentChunkRow.mk doc.id cv.1 cv.2)
          let db3 : FileDB := { db2 with pending_chunks := db2.pending_chunks ++ rows }
          (db3.commit, Except.ok doc)

/-! ### Chat service (`app/services/chat_service.py`) -/

/-- State of the database as seen by the chat path.  The chat code commits
after every add, so no pending rows are modelled here: an add-then-commit is
an append to the stored table. -/
structure ChatDB where
  sessions : List SessionRow
  messages : List MessageRow
  docs : List DocumentRow
  chunks : List DocumentChunkRow
deriving DecidableEq

/-- The history query of `process_chat` / `update_summary`:
`select(Message).where(session_id).order_by(created_at.desc()).limit(n)`
followed by the Python `[::-1]` reversal back to chronological order. -/
def recent_history (msgs : List MessageRow) (session_id : String) (n : Nat) :
    List MessageRow :=
  ((((msgs.filter (fun m => m.session_id == session_id)).reverse).take n)).reverse

/-- Squared Euclidean distance between two vectors.  The pgvector operator `<->`
(`l2_distance`) orders candidates by Euclidean distance; the square root is
strictly monotone on nonnegative reals, so ordering by the squared distance
is the same ordering, and it stays inside ℤ. -/
def l2_dist_sq (v w : List ℤ) : ℤ :=
  ((v.zip w).map (fun p => (p.1 - p.2) ^ 2)).sum

/-- Comparison used by the `order_by(embedding.l2_distance(query_vector))`
clause: chunk `a` sorts no later than chunk `b` when it is at most as far
from the query vector. -/
def chunk_le (qv : List ℤ) (a b : DocumentChunkRow) : Prop :=
  l2_dist_sq qv a.embedding ≤ l2_dist_sq qv b.embedding

instance chunk_le_decidable (qv : List ℤ) : DecidableRel (chunk_le qv) :=
  fun a b =>
    inferInstanceAs (Decidable (l2_dist_sq qv a.embedding ≤ l2_dist_sq qv b.embedding))

instance chunk_le_total (qv : List ℤ) : IsTotal DocumentChunkRow (chunk_le qv) :=
  ⟨fun a b => le_total (l2_dist_sq qv a.embedding) (l2_dist_sq qv b.embedding)⟩

instance chunk_le_trans (qv : List ℤ) : IsTrans DocumentChunkRow (chunk_le qv) :=
  ⟨fun _ _ _ hab hbc => le_trans hab hbc⟩

/-- The join/filter predicate of the retrieval query: the owning
Document of the chunk (joined on `DocumentChunk.document_id == Document.id`) belongs to
the given session. -/
def chunk_in_session (docs : List DocumentRow) (session_id : String)
    (c : DocumentChunkRow) : Bool :=
  docs.any (fun d => d.id == c.document_id && d.session_id == session_id)

/-- The RAG retrieval statement of `process_chat` (step 3):
`select(DocumentChunk).join(Document).where(Document.session_id == session_id)
.order_by(DocumentChunk.embedding.l2_distance(query_vector)).limit(3)`. -/
def retrieve_chunks (docs : List DocumentRow) (chunks : List DocumentChunkRow)
    (session_id : String) (qv : List ℤ) : List DocumentChunkRow :=
  ((chunks.filter (chunk_in_session docs session_id)).insertionSort
    (chunk_le qv)).take 3

/-- The fixed default reply set before the retry loop (kept when the loop
exhausts without a break, which the guard makes unreachable). -/
def overloaded_fallback : String :=
  "I apologize, but I am currently overloaded. Please try again later."

/-- The reply of the outermost `except` handler of `process_chat`. -/
def internal_apology : String :=
  "I apologize, but I encountered an internal error while processing your request."

/-- `"429" in error_str or "RESOURCE_EXHAUSTED" in error_str`. -/
def is_rate_limit (e : String) : Bool :=
  str_contains_sub e "429" || str_contains_sub e "RESOURCE_EXHAUSTED"

/-- `max_retries = 3` in `process_chat`. -/
def max_retries : Nat := 3

/-- Result of the retry loop of `process_chat` step 6: either a reply text
(normal break, or loop exhaustion keeping the preset default) or a re-raised
error, together with the backoff delays slept, in order. -/
inductive LLMOutcome where
  | success (text : String) (delays : List Nat)
  | raised (err : String) (delays : List Nat)
deriving DecidableEq

/-- One chat LLM call: given the assembled role-tagged messages and the
attempt index, the provider returns a reply or raises (rendered message). -/
def LLMOracle : Type :=
  List (String × String) → Nat → Except String String

/-- The `for attempt in range(max_retries)` loop of `process_chat` step 6.
`remaining` counts iterations left, `attempt` is the loop index, `delay` is
the current `retry_delay`; a rate-limit error before the last attempt sleeps
`delay` then doubles it, anything else is re-raised. -/
def retry_go (llm : LLMOracle) (msgs : List (String × String)) :
    Nat → Nat → Nat → List Nat → LLMOutcome
  | 0, _, _, delays => LLMOutcome.success overloaded_fallback delays
  | remaining + 1, attempt, delay, delays =>
    match llm msgs attempt with
    | Except.ok t => LLMOutcome.success t delays
    | Except.error e =>
      if is_rate_limit e ∧ attempt < max_retries - 1 then
        retry_go llm msgs remaining (attempt + 1) (delay * 2) (delays ++ [delay])
      else LLMOutcome.raised e delays

/-- The whole retry loop: 3 attempts, initial `retry_delay = 5` seconds. -/
def retry_llm (llm : LLMOracle) (msgs : List (String × String)) : LLMOutcome :=
  retry_go llm msgs max_retries 0 5 []

/-- The system prompt template of `process_chat` step 5 (instructions text
abbreviated; the claims depend only on the injected context and summary). -/
def build_system_prompt (context_text session_summary : String) : String :=
  "You are an intelligent AI Assistant for the Atlantis system.\n\n" ++
  "Context from Documents (RAG):\n" ++ context_text ++
  "\n\nConversation Summary (Long-term Memory):\n" ++ session_summary

/-- Step 5: system message followed by the chronological history re-tagged as
user/assistant turns (messages with any other role are skipped). -/
def build_chat_messages (system_prompt : String) (history : List MessageRow) :
    List (String × String) :=
  ("system", system_prompt) ::
    history.filterMap (fun m =>
      if m.role = "user" then some ("user", m.content)
      else if m.role = "assistant" then some ("assistant", m.content)
      else none)

/-- Failure-injection oracles for the fallible steps of `process_chat`:
each database round trip and each provider call can raise. -/
structure ChatOracle where
  sessionQuery : Except String Unit
  commitSession : Except String Unit
  commitUser : Except String Unit
  embedQuery : Except String (List ℤ)
  ragExec : Except String Unit
  historyExec : Except String Unit
  llm : LLMOracle
  commitAi : Except String Unit

/-- Stage 3 of `process_chat`: the inner `try/except` around RAG retrieval.
Either provider/store failure degrades to the "Error retrieving context."
marker; an empty result substitutes the "No relevant documents found."
marker; otherwise the chunks are joined into the context block. -/
def rag_context (o : ChatOracle) (db2 : ChatDB) (session_id : String) : String :=
  match o.embedQuery with
  | Except.error _ => "Error retrieving context."
  | Except.ok qv =>
    match o.ragExec with
    | Except.error _ => "Error retrieving context."
    | Except.ok _ =>
      if (retrieve_chunks db2.docs db2.chunks session_id qv).isEmpty then
        "No relevant documents found."
      else
        String.intercalate "\n\n"
          ((retrieve_chunks db2.docs db2.chunks session_id qv).map
            (fun (c : DocumentChunkRow) => "[Chunk]: " ++ c.content))

/-- Stages 4-7 of `process_chat`: history read, prompt assembly, the retry
loop, and persisting the assistant message.  A `raise` becomes an
`Except.error` for the outermost handler. -/
def chat_stages_4_7 (o : ChatOracle) (session_id : String) (db2 : ChatDB)
    (context_text session_summary : String) : Except String (ChatDB × String) :=
  match o.historyExec with
  | Except.error e => Except.error e
  | Except.ok _ =>
    match
      retry_llm o.llm
        (build_chat_messages (build_system_prompt context_text session_summary)
          (recent_history db2.messages session_id 6))
    with
    | LLMOutcome.raised e _ => Except.error e
    | LLMOutcome.success ai_response_text _ =>
      match o.commitAi with
      | Except.error e => Except.error e
      | Except.ok _ =>
        Except.ok
          ({ db2 with
              messages := db2.messages ++ [MessageRow.mk session_id "assistant" ai_response_text] },
            ai_response_text)

/-- Stages 2-7 of `process_chat`, entered with the state of the ensured session:
persist the user message (append + commit), compute the RAG context, then
run stages 4-7. -/
def chat_stages_2_7 (o : ChatOracle) (session_id user_query : String)
    (db1 : ChatDB) (session_summary : String) : Except String (ChatDB × String) :=
  let db2 : ChatDB :=
    { db1 with messages := db1.messages ++ [MessageRow.mk session_id "user" user_query] }
  match o.commitUser with
  | Except.error e => Except.error e
  | Except.ok _ =>
    chat_stages_4_7 o session_id db2 (rag_context o db2 session_id) session_summary

/-- Body of `process_chat` (everything inside the outermost `try`): stage 1
ensures the session exists (creating it with an empty summary when absent),
then stages 2-7 run.  Stage 8 only schedules `update_summary`, which runs on
its own connection after the turn, so it does not change the state of the turn
here. -/
def process_chat_body (o : ChatOracle) (session_id user_query : String)
    (db : ChatDB) : Except String (ChatDB × String) :=
  match o.sessionQuery with
  | Except.error e => Except.error e
  | Except.ok _ =>
    match db.sessions.find? (fun s => s.id == session_id) with
    | none =>
      match o.commitSession with
      | Except.error e => Except.error e
      | Except.ok _ =>
        chat_stages_2_7 o session_id user_query
          { db with sessions := db.sessions ++ [SessionRow.mk session_id none] } ""
    | some s => chat_stages_2_7 o session_id user_query db (s.summary.getD "")

/-- `process_chat` as seen by its caller: the body wrapped in the outermost
`try/except`, which converts any raised error into the fixed apology reply.
The result is `Except` so "the call raised" is expressible at the call site;
the theorems show the error constructor is never produced. -/
def process_chat (o : ChatOracle) (session_id user_query : String)
    (db : ChatDB) : Except String String :=
  match process_chat_body o session_id user_query db with
  | Except.ok r => Except.ok r.2
  | Except.error _ => Except.ok internal_apology

/-- Response schema of the `/chat` route. -/
structure ChatResponse where
  response : String
  session_id : String
deriving DecidableEq

/-- `chat_endpoint` (`app/api/routes.py`): calls `process_chat` and wraps the
reply; its `except` branch turns a raised error into an HTTP 500. -/
def chat_endpoint (o : ChatOracle) (session_id user_query : String)
    (db : ChatDB) : Except HTTPError ChatResponse :=
  match process_chat o session_id user_query db with
  | Except.ok t => Except.ok ⟨t, session_id⟩
  | Except.error _ =>
    Except.error ⟨500, "Internal Server Error during chat processing."⟩

/-! ### Background summarization (`update_summary` in chat_service.py) -/

/-- Failure-injection oracles for `update_summary`: the two database reads,
the LLM call (fed the built prompt), and the final commit. -/
structure SummaryOracle where
  fetchMessages : Except String Unit
  fetchSession : Except String Unit
  llm : String → Except String String
  commitOk : Except String Unit

/-- The summarization prompt of `update_summary` (template abbreviated): the
current summary followed by the `"role: content"` lines of the recent
messages. -/
def build_summary_prompt (current_summary : String)
    (recent_messages : List MessageRow) : String :=
  "You are an expert summarizer. Update the conversation summary based on the new messages.\n\n" ++
  "Current Summary:\n" ++ current_summary ++ "\n\nRecent Messages:\n" ++
  String.intercalate "\n"
    (recent_messages.map (fun m => m.role ++ ": " ++ m.content))

/-- Body of `update_summary` (everything inside its `try`): fetch the last 10
messages chronologically, return unchanged if there are none, fetch the
session row, build the prompt (a missing row reads as "No summary yet.", a
NULL summary renders as Python `None`), invoke the LLM, and commit the
`update(Session).values(summary=...)` write. -/
def update_summary_body (o : SummaryOracle) (session_id : String)
    (db : ChatDB) : Except String ChatDB :=
  match o.fetchMessages with
  | Except.error e => Except.error e
  | Except.ok _ =>
    let recent_messages := recent_history db.messages session_id 10
    if recent_messages.isEmpty then Except.ok db
    else
      match o.fetchSession with
      | Except.error e => Except.error e
      | Except.ok _ =>
        let current_summary :=
          match db.sessions.find? (fun s => s.id == session_id) with
          | some s => match s.summary with | some t => t | none => "None"
          | none => "No summary yet."
        match o.llm (build_summary_prompt current_summary recent_messages) with
        | Except.error e => Except.error e
        | Except.ok new_summary =>
          match o.commitOk with
          | Except.error e => Except.error e
          | Except.ok _ =>
            Except.ok
              { db with
                sessions := db.sessions.map (fun s =>
                  if s.id == session_id then { s with summary := some new_summary }
                  else s) }

/-- `update_summary`: the body wrapped in its `try/except`, which logs and
swallows every failure, leaving the database untouched.  Total by
construction — no exception can propagate to the turn that scheduled it. -/
def update_summary (o : SummaryOracle) (session_id : String) (db : ChatDB) :
    ChatDB :=
  match update_summary_body o session_id db with
  | Except.ok db2 => db2
  | Except.error _ => db

/-! ### Helper lemmas -/

lemma str_append_empty (s : String) : s ++ "" = s := by
  cases s with
  | mk data =>
    show String.mk (data ++ []) = String.mk data
    rw [List.append_nil]

lemma str_empty_append (s : String) : "" ++ s = s := by
  cases s with
  | mk data =>
    show String.mk ([] ++ data) = String.mk data
    rw [List.nil_append]

lemma str_append_assoc (a b c : String) : a ++ b ++ c = a ++ (b ++ c) := by
  cases a with
  | mk da =>
    cases b with
    | mk db =>
      cases c with
      | mk dc =>
        show String.mk (da ++ db ++ dc) = String.mk (da ++ (db ++ dc))
        rw [List.append_assoc]

lemma parse_pdf_loop_eq (ps : List PageResult) (acc : String) :
    parse_pdf_loop ps acc = acc ++ text_before_failure ps := by
  induction ps generalizing acc with
  | nil => simp [parse_pdf_loop, text_before_failure, str_append_empty]
  | cons p rest ih =>
    cases p with
    | fail => simp [parse_pdf_loop, text_before_failure, str_append_empty]
    | text t =>
      cases t with
      | none => simp [parse_pdf_loop, text_before_failure, ih]
      | some s =>
        simp [parse_pdf_loop, text_before_failure, ih, str_append_assoc]

lemma text_before_failure_is_start (ps : List PageResult) :
    ∃ rest, full_page_text ps = text_before_failure ps ++ rest := by
  induction ps with
  | nil => exact ⟨"", rfl⟩
  | cons p rest ih =>
    cases p with
    | fail =>
      exact ⟨full_page_text (PageResult.fail :: rest), (str_empty_append _).symm⟩
    | text t =>
      obtain ⟨r, hr⟩ := ih
      cases t with
      | none => exact ⟨r, hr⟩
      | some s =>
        refine ⟨r, ?_⟩
        show s ++ full_page_text rest = s ++ text_before_failure rest ++ r
        rw [str_append_assoc, hr]

/-- One unfolding step of the sliding-window splitter on a nonempty list. -/
lemma slide_go_step (size step fuel : Nat) (l : List Char) (h : l ≠ []) :
    slide_chunks_go size step (fuel + 1) l =
      if l.length ≤ size then [l]
      else l.take size :: slide_chunks_go size step fuel (l.drop step) := by
  cases l with
  | nil => exact absurd rfl h
  | cons c cs => rfl

/-! ### C9 -/

/-- C9: `parse_pdf` is total — every byte input yields a string, with any
exception during reader construction or page extraction swallowed.  The
returned text is exactly the text accumulated up to the first failure point
(empty when the reader cannot be built), and that text is an initial segment
of the full extractable text of the document, so a PDF failing partway yields
silently truncated content rather than an error. -/
theorem C9_parse_pdf_total_truncation (f : PdfFile) :
    parse_pdf f = (if f.readerOk then text_before_failure f.pages else "") ∧
    ∃ rest, full_page_text f.pages = parse_pdf f ++ rest := by
  constructor
  · unfold parse_pdf
    by_cases h : f.readerOk
    · simp [h, parse_pdf_loop_eq, str_empty_append]
    · simp [h]
  · unfold parse_pdf
    by_cases h : f.readerOk
    · simpa [h, parse_pdf_loop_eq, str_empty_append] using
        text_before_failure_is_start f.pages
    · exact ⟨full_page_text f.pages, by simp [h, str_empty_append]⟩

/-! ### C7 -/

/-- C7: an upload whose (lower-cased) filename neither ends in `.pdf` nor in
`.txt` fails before any state is touched: the database is returned unchanged
(no Document row, no chunk row) and the outcome is the 400 error carrying the
unsupported-format detail (wrapped by the generic read handler as
`"Error reading file: 400: Unsupported file format. ..."`). -/
theorem C7_unsupported_extension_untouched
    (embed : List String → Except String (List (List ℤ)))
    (u : UploadData) (session_id : String) (db : FileDB)
    (hpdf : ends_with_str (lower_str u.filename) ".pdf" = false)
    (htxt : ends_with_str (lower_str u.filename) ".txt" = false) :
    process_file embed u session_id db =
      (db, Except.error ⟨400, "Error reading file: 400: " ++ unsupported_detail⟩) := by
  unfold process_file read_content
  rw [hpdf, htxt]
  rfl

/-- Witness for C7 at a concrete `.docx` upload. -/
theorem C7_unsupported_extension_untouched_witness :
    ends_with_str (lower_str "report.docx") ".pdf" = false ∧
    ends_with_str (lower_str "report.docx") ".txt" = false ∧
    process_file (fun _ => Except.ok [])
        ⟨"report.docx", ⟨⟨true, []⟩, Except.ok "x"⟩⟩ "session-A" ⟨[], [], [], [], 0⟩ =
      (⟨[], [], [], [], 0⟩,
        Except.error ⟨400, "Error reading file: 400: " ++ unsupported_detail⟩) :=
  ⟨by decide, by decide,
    C7_unsupported_extension_untouched (fun _ => Except.ok [])
      ⟨"report.docx", ⟨⟨true, []⟩, Except.ok "x"⟩⟩ "session-A" ⟨[], [], [], [], 0⟩
      (by decide) (by decide)⟩

/-! ### C3 -/

/-- On a 2000-character text the sliding-window splitter produces exactly the
three windows at offsets 0, 700 and 1400. -/
lemma split_text_2000 (s : String) (h : s.length = 2000) :
    split_text s =
      [String.mk (s.data.take 800),
       String.mk ((s.data.drop 700).take 800),
       String.mk (s.data.drop 1400)] := by
  have hd : s.data.length = 2000 := h
  have h1 : s.data ≠ [] := by
    intro hnil
    rw [hnil] at hd
    simp at hd
  have h2 : s.data.drop 700 ≠ [] := by
    intro hnil
    have : (s.data.drop 700).length = 0 := by rw [hnil]; rfl
    rw [List.length_drop, hd] at this
    omega
  have h3 : (s.data.drop 700).drop 700 ≠ [] := by
    intro hnil
    have : ((s.data.drop 700).drop 700).length = 0 := by rw [hnil]; rfl
    rw [List.length_drop, List.length_drop, hd] at this
    omega
  unfold split_text
  rw [hd]
  rw [show (2000 : Nat) = 1999 + 1 from rfl, slide_go_step 800 700 1999 s.data h1]
  rw [if_neg (by rw [hd]; omega)]
  rw [show (1999 : Nat) = 1998 + 1 from rfl,
    slide_go_step 800 700 1998 (s.data.drop 700) h2]
  rw [if_neg (by rw [List.length_drop, hd]; omega)]
  rw [show (1998 : Nat) = 1997 + 1 from rfl,
    slide_go_step 800 700 1997 ((s.data.drop 700).drop 700) h3]
  rw [if_pos (by rw [List.length_drop, List.length_drop, hd]; omega)]
  rw [List.drop_drop]
  rfl

/-- C3: per the splitting policy of the spec (chunk size 800, overlap 100,
deterministic character sliding window — modelled from the spec, see
`slide_chunks_go`), every 2000-character text splits into exactly 3 chunks of
lengths 800, 800 and 600 (each at most 800 characters), and each chunk after
the first begins with the 100 characters that end its predecessor. -/
theorem C3_split_2000_three_chunks (s : String) (h : s.length = 2000) :
    ∃ a b c : String, split_text s = [a, b, c] ∧
      a.length = 800 ∧ b.length = 800 ∧ c.length = 600 ∧
      (∀ x ∈ split_text s, x.length ≤ 800) ∧
      b.data.take 100 = a.data.drop (a.length - 100) ∧
      c.data.take 100 = b.data.drop (b.length - 100) := by
  have hd : s.data.length = 2000 := h
  have hsplit := split_text_2000 s h
  refine ⟨String.mk (s.data.take 800), String.mk ((s.data.drop 700).take 800),
    String.mk (s.data.drop 1400), hsplit, ?_, ?_, ?_, ?_, ?_, ?_⟩
  · show (s.data.take 800).length = 800
    rw [List.length_take, hd]
    decide
  · show ((s.data.drop 700).take 800).length = 800
    rw [List.length_take, List.length_drop, hd]
    decide
  · show (s.data.drop 1400).length = 600
    rw [List.length_drop, hd]
  · intro x hx
    rw [hsplit] at hx
    simp only [List.mem_cons, List.not_mem_nil, or_false] at hx
    rcases hx with hx | hx | hx
    · subst hx
      show (s.data.take 800).length ≤ 800
      rw [List.length_take, hd]
      decide
    · subst hx
      show ((s.data.drop 700).take 800).length ≤ 800
      rw [List.length_take, List.length_drop, hd]
      decide
    · subst hx
      show (s.data.drop 1400).length ≤ 800
      rw [List.length_drop, hd]
      decide
  · show ((s.data.drop 700).take 800).take 100 =
      (s.data.take 800).drop ((s.data.take 800).length - 100)
    rw [List.take_take, List.length_take, hd]
    rw [show ((100 : Nat) ⊓ 800) = 100 from rfl,
      show ((800 : Nat) ⊓ 2000) = 800 from rfl]
    rw [List.drop_take]
  · show (s.data.drop 1400).take 100 =
      ((s.data.drop 700).take 800).drop (((s.data.drop 700).take 800).length - 100)
    rw [List.length_take, List.length_drop, hd]
    rw [show ((800 : Nat) ⊓ (2000 - 700) - 100) = 700 from rfl]
    rw [List.drop_take, List.drop_drop]

/-- Witness for C3 at the concrete 2000-character text `aaaa...a`. -/
theorem C3_split_2000_three_chunks_witness :
    (String.mk (List.replicate 2000 'a')).length = 2000 ∧
    ∃ a b c : String,
      split_text (String.mk (List.replicate 2000 'a')) = [a, b, c] ∧
      a.length = 800 ∧ b.length = 800 ∧ c.length = 600 ∧
      (∀ x ∈ split_text (String.mk (List.replicate 2000 'a')), x.length ≤ 800) ∧
      b.data.take 100 = a.data.drop (a.length - 100) ∧
      c.data.take 100 = b.data.drop (b.length - 100) :=
  ⟨by
      show (List.replicate 2000 'a').length = 2000
      rw [List.length_replicate],
    C3_split_2000_three_chunks (String.mk (List.replicate 2000 'a'))
      (by
        show (List.replicate 2000 'a').length = 2000
        rw [List.length_replicate])⟩

/-! ### C6 -/

/-- C6 counterexample: a corrupt PDF (reader construction fails).
`parse_pdf` swallows the parsing failure and returns `""`, so ingestion does
NOT fail with an extraction error distinct from the empty-content error — it
fails with the empty-content error itself (400, "File content is empty or
could not be extracted.").  No Document row is persisted, but the error
class contradicts the claim. -/
theorem C6_corrupt_pdf_counterexample :
    process_file (fun _ => Except.ok [])
        ⟨"broken.pdf", ⟨⟨false, []⟩, Except.ok "ignored"⟩⟩ "session-A"
        ⟨[], [], [], [], 0⟩ =
      (⟨[], [], [], [], 0⟩, Except.error ⟨400, empty_detail⟩) := by
  decide

/-- C6 amended: undecodable bytes of a `.txt` upload fail inside the read
`try` and surface as the wrapped read error (400, "Error reading file: ..."),
while a corrupt PDF has its parse failure swallowed by `parse_pdf` and — the
extracted text being empty — surfaces as the empty-content error (400).  In
both cases the database is returned untouched: no Document row and no chunk
row is persisted. -/
theorem C6_extraction_failure_amended
    (embed : List String → Except String (List (List ℤ)))
    (u : UploadData) (session_id : String) (db : FileDB) :
    (ends_with_str (lower_str u.filename) ".pdf" = false →
      ends_with_str (lower_str u.filename) ".txt" = true →
      ∀ msg, u.bytes.asUtf8 = Except.error msg →
      process_file embed u session_id db =
        (db, Except.error ⟨400, "Error reading file: " ++ msg⟩)) ∧
    (ends_with_str (lower_str u.filename) ".pdf" = true →
      is_blank (parse_pdf u.bytes.asPdf) = true →
      process_file embed u session_id db =
        (db, Except.error ⟨400, empty_detail⟩)) := by
  constructor
  · intro hpdf htxt msg hdec
    unfold process_file read_content
    rw [hpdf, htxt, hdec]
    rfl
  · intro hpdf hblank
    unfold process_file read_content
    rw [hpdf]
    simp only [if_true]
    rw [hblank]
    rfl

/-- Witness for C6 amended, at a `.txt` upload with undecodable bytes and at
a corrupt `.pdf` upload. -/
theorem C6_extraction_failure_amended_witness :
    (ends_with_str (lower_str "data.txt") ".pdf" = false ∧
      ends_with_str (lower_str "data.txt") ".txt" = true ∧
      process_file (fun _ => Except.ok [])
          ⟨"data.txt", ⟨⟨true, []⟩, Except.error "invalid utf-8 start byte"⟩⟩
          "session-A" ⟨[], [], [], [], 0⟩ =
        (⟨[], [], [], [], 0⟩,
          Except.error ⟨400, "Error reading file: " ++ "invalid utf-8 start byte"⟩)) ∧
    (ends_with_str (lower_str "scan.pdf") ".pdf" = true ∧
      is_blank (parse_pdf ⟨false, []⟩) = true ∧
      process_file (fun _ => Except.ok [])
          ⟨"scan.pdf", ⟨⟨false, []⟩, Except.ok "ignored"⟩⟩ "session-B"
          ⟨[], [], [], [], 0⟩ =
        (⟨[], [], [], [], 0⟩, Except.error ⟨400, empty_detail⟩)) :=
  ⟨⟨by decide, by decide,
      (C6_extraction_failure_amended (fun _ => Except.ok [])
          ⟨"data.txt", ⟨⟨true, []⟩, Except.error "invalid utf-8 start byte"⟩⟩
          "session-A" ⟨[], [], [], [], 0⟩).1
        (by decide) (by decide) "invalid utf-8 start byte" rfl⟩,
    ⟨by decide, by decide,
      (C6_extraction_failure_amended (fun _ => Except.ok [])
          ⟨"scan.pdf", ⟨⟨false, []⟩, Except.ok "ignored"⟩⟩ "session-B"
          ⟨[], [], [], [], 0⟩).2
        (by decide) (by decide)⟩⟩

/-! ### C2 -/

/-- C2 counterexample: a `.txt` upload whose batched embedding call fails.
The Document row was already committed before chunking, so after the failure
the stored `docs` table still contains the Document — the rollback only
discards pending (chunk) rows.  The claim that no Document state from the
upload is persisted is false. -/
theorem C2_embed_failure_counterexample :
    process_file (fun _ => Except.error "boom")
        ⟨"notes.txt", ⟨⟨true, []⟩, Except.ok "hello world hello world"⟩⟩
        "session-A" ⟨[], [], [], [], 0⟩ =
      (⟨[⟨0, "session-A", "notes.txt", "hello world hello world"⟩], [], [], [], 1⟩,
        Except.error ⟨500, "Internal Server Error processing file: boom"⟩) := by
  decide

/-- C2 amended: when the batched chunk-embedding call fails, the pending
chunk rows are rolled back (the stored chunk table is unchanged) and the
caller gets the 500 error, but the Document row — committed before chunking —
remains persisted. -/
theorem C2_embed_failure_amended
    (embed : List String → Except String (List (List ℤ)))
    (u : UploadData) (session_id : String) (db : FileDB) (content msg : String)
    (hread : read_content u = Except.ok content)
    (hblank : is_blank content = false)
    (hpd : db.pending_docs = [])
    (hpc : db.pending_chunks = [])
    (hchunks : (split_text content).isEmpty = false)
    (hembed : embed (split_text content) = Except.error msg) :
    process_file embed u session_id db =
      ({ db with
          docs := db.docs ++ [⟨db.next_doc_id, session_id, u.filename, content⟩],
          next_doc_id := db.next_doc_id + 1 },
        Except.error ⟨500, "Internal Server Error processing file: " ++ msg⟩) := by
  unfold process_file
  rw [hread]
  simp only [hblank, Bool.false_eq_true, if_false, hchunks, hembed]
  simp [FileDB.commit, FileDB.rollback, hpd, hpc]

/-- Witness for C2 amended at a concrete failing-embedding upload. -/
theorem C2_embed_failure_amended_witness :
    read_content ⟨"b.txt", ⟨⟨true, []⟩, Except.ok "abc"⟩⟩ = Except.ok "abc" ∧
    is_blank "abc" = false ∧
    (split_text "abc").isEmpty = false ∧
    process_file (fun _ => Except.error "quota")
        ⟨"b.txt", ⟨⟨true, []⟩, Except.ok "abc"⟩⟩ "session-A"
        ⟨[], [], [], [], 0⟩ =
      (⟨[⟨0, "session-A", "b.txt", "abc"⟩], [], [], [], 1⟩,
        Except.error ⟨500, "Internal Server Error processing file: " ++ "quota"⟩) :=
  ⟨by decide, by decide, by decide,
    C2_embed_failure_amended (fun _ => Except.error "quota")
      ⟨"b.txt", ⟨⟨true, []⟩, Except.ok "abc"⟩⟩ "session-A"
      ⟨[], [], [], [], 0⟩ "abc" "quota"
      (by decide) (by decide) rfl rfl (by decide) rfl⟩

/-! ### C4 -/

/-- C4: for every store, session and query vector, retrieval returns at most
3 chunks, ordered by ascending L2 distance to the query embedding (stated via
the squared distance `l2_dist_sq`, which induces the same order), and every
owning Document of each returned chunk belongs to the given session — chunks
owned by documents of other sessions are never returned. -/
theorem C4_retrieval_topk_sorted_isolated (docs : List DocumentRow)
    (chunks : List DocumentChunkRow) (session_id : String) (qv : List ℤ) :
    (retrieve_chunks docs chunks session_id qv).length ≤ 3 ∧
    List.Sorted (chunk_le qv) (retrieve_chunks docs chunks session_id qv) ∧
    ∀ c ∈ retrieve_chunks docs chunks session_id qv,
      ∃ d ∈ docs, d.id = c.document_id ∧ d.session_id = session_id := by
  refine ⟨List.length_take_le _ _, ?_, ?_⟩
  · exact List.Pairwise.sublist (List.take_sublist 3 _)
      (List.sorted_insertionSort (chunk_le qv)
        (chunks.filter (chunk_in_session docs session_id)))
  · intro c hc
    have h1 : c ∈ (chunks.filter (chunk_in_session docs session_id)).insertionSort
        (chunk_le qv) := List.mem_of_mem_take hc
    have h2 : c ∈ chunks.filter (chunk_in_session docs session_id) :=
      (List.mem_insertionSort (chunk_le qv)).mp h1
    have h3 : chunk_in_session docs session_id c = true := (List.mem_filter.mp h2).2
    unfold chunk_in_session at h3
    obtain ⟨d, hd, hdp⟩ := List.any_eq_true.mp h3
    rw [Bool.and_eq_true] at hdp
    exact ⟨d, hd, eq_of_beq hdp.1, eq_of_beq hdp.2⟩

/-- Witness for C4 on a concrete two-session store: the chunk owned by the document of session A
is returned, and the theorem instantiates to its isolation fact. -/
theorem C4_retrieval_topk_sorted_isolated_witness :
    (⟨1, "ca", [0]⟩ : DocumentChunkRow) ∈
      retrieve_chunks
        [⟨1, "A", "fa.txt", "ta"⟩, ⟨2, "B", "fb.txt", "tb"⟩]
        [⟨1, "ca", [0]⟩, ⟨2, "cb", [5]⟩] "A" [0] ∧
    ∃ d ∈ [(⟨1, "A", "fa.txt", "ta"⟩ : DocumentRow), ⟨2, "B", "fb.txt", "tb"⟩],
      d.id = (⟨1, "ca", [0]⟩ : DocumentChunkRow).document_id ∧ d.session_id = "A" :=
  ⟨by decide,
    (C4_retrieval_topk_sorted_isolated
        [⟨1, "A", "fa.txt", "ta"⟩, ⟨2, "B", "fb.txt", "tb"⟩]
        [⟨1, "ca", [0]⟩, ⟨2, "cb", [5]⟩] "A" [0]).2.2
      ⟨1, "ca", [0]⟩ (by decide)⟩

/-! ### C8 -/

/-- The desc-limit-reverse query equals the chronological suffix of the
messages of the session. -/
lemma recent_history_eq_drop (msgs : List MessageRow) (session_id : String)
    (n : Nat) :
    recent_history msgs session_id n =
      (msgs.filter (fun m => m.session_id == session_id)).drop
        ((msgs.filter (fun m => m.session_id == session_id)).length - n) := by
  unfold recent_history
  rw [List.take_reverse, List.reverse_reverse]

/-- C8: the memory read of `process_chat` (fetch last 6 by descending
`created_at`, then reverse) yields the chronological suffix, of length at most 6, of the
messages of the session; and since the current user message is committed
(appended) before this read, that just-saved message is inside the window. -/
theorem C8_history_window_contains_user_msg (msgs : List MessageRow)
    (session_id : String) (m : MessageRow) (hm : m.session_id = session_id) :
    m ∈ recent_history (msgs ++ [m]) session_id 6 ∧
    recent_history (msgs ++ [m]) session_id 6 =
      ((msgs ++ [m]).filter (fun x => x.session_id == session_id)).drop
        (((msgs ++ [m]).filter (fun x => x.session_id == session_id)).length - 6) ∧
    (recent_history (msgs ++ [m]) session_id 6).length ≤ 6 := by
  have hf : (msgs ++ [m]).filter (fun x => x.session_id == session_id) =
      msgs.filter (fun x => x.session_id == session_id) ++ [m] := by
    rw [List.filter_append]
    simp [hm]
  refine ⟨?_, recent_history_eq_drop _ _ _, ?_⟩
  · rw [recent_history_eq_drop, hf]
    have hk : (msgs.filter (fun x => x.session_id == session_id) ++ [m]).length - 6 ≤
        (msgs.filter (fun x => x.session_id == session_id)).length := by
      rw [List.length_append]
      simp
    rw [List.drop_append_of_le_length hk]
    exact List.mem_append_right _ (List.mem_singleton.mpr rfl)
  · unfold recent_history
    rw [List.length_reverse, List.length_take, List.length_reverse]
    exact inf_le_left

/-- Witness for C8 at a concrete one-message history plus the new user turn. -/
theorem C8_history_window_contains_user_msg_witness :
    (MessageRow.mk "s" "user" "q").session_id = "s" ∧
    (⟨"s", "user", "q"⟩ : MessageRow) ∈
      recent_history ([⟨"s", "assistant", "hi"⟩] ++ [⟨"s", "user", "q"⟩]) "s" 6 :=
  ⟨rfl,
    (C8_history_window_contains_user_msg [⟨"s", "assistant", "hi"⟩] "s"
      ⟨"s", "user", "q"⟩ rfl).1⟩

/-! ### C5 -/

/-- With no messages for the session, the consolidation body either fails on
the fetch itself or returns the database unchanged. -/
lemma update_summary_body_no_messages (o : SummaryOracle) (session_id : String)
    (db : ChatDB) (h : recent_history db.messages session_id 10 = []) :
    update_summary_body o session_id db = Except.ok db ∨
      ∃ e, update_summary_body o session_id db = Except.error e := by
  unfold update_summary_body
  cases o.fetchMessages with
  | error e => exact Or.inr ⟨e, rfl⟩
  | ok u => simp [h]

/-- C5: `Session.summary` is written only by a fully successful consolidation
run over at least one fetched message.  A run with no messages is a no-op, a
run failing at any step leaves the database (hence the prior summary) intact,
and — `update_summary` being a total function whose `except` absorbs every
body failure — no exception propagates to the turn that scheduled it. -/
theorem C5_consolidation_write_discipline (o : SummaryOracle)
    (session_id : String) (db : ChatDB) :
    (recent_history db.messages session_id 10 = [] →
      update_summary o session_id db = db) ∧
    (∀ e, update_summary_body o session_id db = Except.error e →
      update_summary o session_id db = db) ∧
    (update_summary o session_id db ≠ db →
      recent_history db.messages session_id 10 ≠ [] ∧
      update_summary_body o session_id db =
        Except.ok (update_summary o session_id db)) := by
  refine ⟨?_, ?_, ?_⟩
  · intro h
    rcases update_summary_body_no_messages o session_id db h with hb | ⟨e, hb⟩ <;>
      · unfold update_summary
        rw [hb]
  · intro e he
    unfold update_summary
    rw [he]
  · intro hne
    cases hbody : update_summary_body o session_id db with
    | error e =>
      exfalso
      apply hne
      unfold update_summary
      rw [hbody]
    | ok db2 =>
      have hupd : update_summary o session_id db = db2 := by
        unfold update_summary
        rw [hbody]
      constructor
      · intro hre
        rcases update_summary_body_no_messages o session_id db hre with hb | ⟨e, hb⟩
        · rw [hbody] at hb
          apply hne
          rw [hupd]
          exact (Except.ok.injEq _ _ ▸ hb :)
        · rw [hbody] at hb
          exact Except.noConfusion hb
      · rw [hupd]

/-- Witness for C5: the no-op branch on an empty session, and a fully
successful run on a nonempty one. -/
theorem C5_consolidation_write_discipline_witness :
    (recent_history (ChatDB.mk [⟨"s", none⟩] [] [] []).messages "s" 10 = [] ∧
      update_summary ⟨Except.ok (), Except.ok (), fun _ => Except.ok "sum", Except.ok ()⟩
        "s" ⟨[⟨"s", none⟩], [], [], []⟩ = ⟨[⟨"s", none⟩], [], [], []⟩) ∧
    (update_summary ⟨Except.ok (), Except.ok (), fun _ => Except.ok "sum", Except.ok ()⟩
        "s" ⟨[⟨"s", none⟩], [⟨"s", "user", "hello"⟩], [], []⟩ ≠
        ⟨[⟨"s", none⟩], [⟨"s", "user", "hello"⟩], [], []⟩ ∧
      recent_history (ChatDB.mk [⟨"s", none⟩] [⟨"s", "user", "hello"⟩] [] []).messages
          "s" 10 ≠ [] ∧
      update_summary_body ⟨Except.ok (), Except.ok (), fun _ => Except.ok "sum", Except.ok ()⟩
          "s" ⟨[⟨"s", none⟩], [⟨"s", "user", "hello"⟩], [], []⟩ =
        Except.ok (update_summary
          ⟨Except.ok (), Except.ok (), fun _ => Except.ok "sum", Except.ok ()⟩
          "s" ⟨[⟨"s", none⟩], [⟨"s", "user", "hello"⟩], [], []⟩)) :=
  ⟨⟨by decide,
      (C5_consolidation_write_discipline
          ⟨Except.ok (), Except.ok (), fun _ => Except.ok "sum", Except.ok ()⟩
          "s" ⟨[⟨"s", none⟩], [], [], []⟩).1 (by decide)⟩,
    ⟨by decide,
      (C5_consolidation_write_discipline
          ⟨Except.ok (), Except.ok (), fun _ => Except.ok "sum", Except.ok ()⟩
          "s" ⟨[⟨"s", none⟩], [⟨"s", "user", "hello"⟩], [], []⟩).2.2 (by decide)⟩⟩

/-! ### C10 -/

/-- C10: `process_chat` is total at the public chat interface: whichever
stage raises — session lookup/creation (stage 1) and user-message persistence
(stage 2) included, since the outermost `try` wraps them too — the caller
receives a string (the LLM reply or the fixed apology) and never an
exception; consequently the 500 branch of the `/chat` route is unreachable
via `process_chat`. -/
theorem C10_process_chat_never_raises (o : ChatOracle)
    (session_id user_query : String) (db : ChatDB) :
    ∃ s : String, process_chat o session_id user_query db = Except.ok s ∧
      chat_endpoint o session_id user_query db = Except.ok ⟨s, session_id⟩ := by
  have hpc : ∃ s, process_chat o session_id user_query db = Except.ok s := by
    unfold process_chat
    cases process_chat_body o session_id user_query db with
    | ok r => exact ⟨r.2, rfl⟩
    | error e => exact ⟨internal_apology, rfl⟩
  obtain ⟨s, hs⟩ := hpc
  refine ⟨s, hs, ?_⟩
  unfold chat_endpoint
  rw [hs]

/-! ### C1 -/

/-- Equation of one iteration of the retry loop. -/
lemma retry_go_succ (llm : LLMOracle) (msgs : List (String × String))
    (remaining attempt delay : Nat) (delays : List Nat) :
    retry_go llm msgs (remaining + 1) attempt delay delays =
      match llm msgs attempt with
      | Except.ok t => LLMOutcome.success t delays
      | Except.error e =>
        if is_rate_limit e ∧ attempt < max_retries - 1 then
          retry_go llm msgs remaining (attempt + 1) (delay * 2) (delays ++ [delay])
        else LLMOutcome.raised e delays := rfl

/-- Three consecutive rate-limit errors drive the loop through exactly the
two backoff delays 5 and 10 and re-raise the third error. -/
lemma retry_all_rate_limited (llm : LLMOracle) (msgs : List (String × String))
    (h : ∀ i, i < 3 → ∃ e, llm msgs i = Except.error e ∧ is_rate_limit e = true) :
    ∃ e, retry_llm llm msgs = LLMOutcome.raised e [5, 10] := by
  obtain ⟨e0, he0, hr0⟩ := h 0 (by omega)
  obtain ⟨e1, he1, hr1⟩ := h 1 (by omega)
  obtain ⟨e2, he2, hr2⟩ := h 2 (by omega)
  refine ⟨e2, ?_⟩
  unfold retry_llm
  rw [show max_retries = 2 + 1 from rfl]
  simp only [retry_go_succ, he0, he1, he2, hr0, hr1, hr2, max_retries]
  norm_num

/-- Under uniformly rate-limited LLM attempts, stages 4-7 always raise. -/
lemma chat_stages_4_7_rate_limited (o : ChatOracle) (session_id : String)
    (db2 : ChatDB) (context_text session_summary : String)
    (hretry : ∀ msgs, ∃ e, retry_llm o.llm msgs = LLMOutcome.raised e [5, 10]) :
    ∃ e, chat_stages_4_7 o session_id db2 context_text session_summary =
      Except.error e := by
  unfold chat_stages_4_7
  cases o.historyExec with
  | error e => exact ⟨e, rfl⟩
  | ok x =>
    obtain ⟨e, he⟩ := hretry
      (build_chat_messages (build_system_prompt context_text session_summary)
        (recent_history db2.messages session_id 6))
    rw [he]
    exact ⟨e, rfl⟩

/-- Under uniformly rate-limited LLM attempts the chat body always raises:
every path either fails at an earlier stage or reaches the retry loop, whose
third failure is re-raised. -/
lemma process_chat_body_rate_limited (o : ChatOracle)
    (session_id user_query : String) (db : ChatDB)
    (hretry : ∀ msgs, ∃ e, retry_llm o.llm msgs = LLMOutcome.raised e [5, 10]) :
    ∃ e, process_chat_body o session_id user_query db = Except.error e := by
  have hstage : ∀ (db1 : ChatDB) (session_summary : String),
      ∃ e, chat_stages_2_7 o session_id user_query db1 session_summary =
        Except.error e := by
    intro db1 session_summary
    unfold chat_stages_2_7
    cases o.commitUser with
    | error e => exact ⟨e, rfl⟩
    | ok w =>
      exact chat_stages_4_7_rate_limited o session_id _ _ session_summary hretry
  unfold process_chat_body
  cases o.sessionQuery with
  | error e => exact ⟨e, rfl⟩
  | ok u =>
    cases db.sessions.find? (fun s => s.id == session_id) with
    | none =>
      cases o.commitSession with
      | error e => exact ⟨e, rfl⟩
      | ok v => exact hstage _ _
    | some s => exact hstage _ _

/-- C1 amended: when the provider signals a rate-limit error on all three
attempts, the loop sleeps exactly the backoff delays 5s and 10s (base 5,
doubling) and re-raises the third error instead of substituting the preset
"currently overloaded" default; the outermost handler of `process_chat`
absorbs it, so the caller gets — without any exception — the generic
internal-error apology, not the overloaded message. -/
theorem C1_rate_limit_exhaustion_amended (o : ChatOracle)
    (session_id user_query : String) (db : ChatDB)
    (h : ∀ msgs i, i < 3 → ∃ e, o.llm msgs i = Except.error e ∧ is_rate_limit e = true) :
    (∀ msgs, ∃ e, retry_llm o.llm msgs = LLMOutcome.raised e [5, 10]) ∧
    process_chat o session_id user_query db = Except.ok internal_apology ∧
    internal_apology ≠ overloaded_fallback := by
  have hretry : ∀ msgs, ∃ e, retry_llm o.llm msgs = LLMOutcome.raised e [5, 10] :=
    fun msgs => retry_all_rate_limited o.llm msgs (h msgs)
  refine ⟨hretry, ?_, by decide⟩
  obtain ⟨e, he⟩ := process_chat_body_rate_limited o session_id user_query db hretry
  unfold process_chat
  rw [he]

/-- The chat oracle of the C1 scenario: every provider attempt fails with a
quota error, every database step succeeds. -/
def rate_limited_oracle : ChatOracle :=
  ⟨Except.ok (), Except.ok (), Except.ok (), Except.ok [0], Except.ok (),
    Except.ok (), fun _ _ => Except.error "429 RESOURCE_EXHAUSTED: quota exceeded",
    Except.ok ()⟩

/-- C1 counterexample: with three consecutive rate-limit failures the caller
does NOT receive the fixed "currently overloaded" fallback message — the
third error is re-raised out of the loop and the outermost handler returns
the generic internal-error apology instead (no exception is raised to the
caller, but the returned string differs from the claimed one). -/
theorem C1_rate_limit_exhaustion_counterexample :
    process_chat rate_limited_oracle "session-A" "hello" ⟨[], [], [], []⟩ =
      Except.ok internal_apology ∧
    internal_apology ≠ overloaded_fallback := by
  constructor
  · decide
  · decide

/-- Witness for C1 amended at the concrete all-rate-limited oracle. -/
theorem C1_rate_limit_exhaustion_amended_witness :
    (∀ msgs i, i < 3 → ∃ e, rate_limited_oracle.llm msgs i = Except.error e ∧
      is_rate_limit e = true) ∧
    ((∀ msgs, ∃ e, retry_llm rate_limited_oracle.llm msgs = LLMOutcome.raised e [5, 10]) ∧
      process_chat rate_limited_oracle "session-B" "hi" ⟨[], [], [], []⟩ =
        Except.ok internal_apology ∧
      internal_apology ≠ overloaded_fallback) :=
  ⟨fun _ _ _ => ⟨"429 RESOURCE_EXHAUSTED: quota exceeded", rfl, by decide⟩,
    C1_rate_limit_exhaustion_amended rate_limited_oracle "session-B" "hi"
      ⟨[], [], [], []⟩
      (fun _ _ _ => ⟨"429 RESOURCE_EXHAUSTED: quota exceeded", rfl, by decide⟩)⟩
